import Mathlib

/-!
Verification of the alumninet route-gating middleware, the onboarding
form controller and the directory pagination, shallowly embedded from
the TypeScript sources (middleware.ts, app/onboarding/page.tsx,
app/directory/page.tsx, lib/validation/onboarding.ts).
-/

namespace AlumniNet

/-- JS `String.prototype.startsWith`, on the underlying character lists. -/
def strStartsWith (s pre : String) : Bool :=
  pre.data.isPrefixOf s.data

/-- JS `String.prototype.trim`: strip whitespace from both ends. -/
def jsTrim (s : String) : String :=
  ⟨((s.data.dropWhile Char.isWhitespace).reverse.dropWhile Char.isWhitespace).reverse⟩

/-- Lower-casing, as performed by a case-insensitive regex match. -/
def jsToLower (s : String) : String :=
  ⟨s.data.map Char.toLower⟩

/-- Query strings are modelled as association lists of key/value pairs. -/
abbrev Query := List (String × String)

/-- `URLSearchParams.set k v`: all prior entries for `k` are dropped and the
pair `(k, v)` is stored.  (The real object keeps the first occurrence's
position; only the key-to-value mapping matters for the claims.) -/
def setParam (k v : String) (q : Query) : Query :=
  q.filter (fun e => !(e.1 == k)) ++ [(k, v)]

/-- `URLSearchParams.get k`: value of the first entry for `k`. -/
def getParam (k : String) (q : Query) : Option String :=
  (q.find? (fun e => e.1 == k)).map (fun e => e.2)

/-- `PUBLIC_ROUTES` from middleware.ts. -/
def PUBLIC_ROUTES : List String :=
  ["/", "/auth/login", "/auth/signup", "/auth/callback"]

/-- `AUTH_ONLY` from middleware.ts. -/
def AUTH_ONLY : List String :=
  ["/dashboard", "/onboarding", "/directory"]

/-- `ONBOARDING_REQUIRED` from middleware.ts. -/
def ONBOARDING_REQUIRED : List String :=
  ["/dashboard", "/directory"]

/-- `APPROVAL_REQUIRED` from middleware.ts. -/
def APPROVAL_REQUIRED : List String :=
  ["/directory"]

/-- `startsWithOneOf` from middleware.ts: a pathname matches a base if it
equals the base or starts with base + "/". -/
def startsWithOneOf (pathname : String) (bases : List String) : Bool :=
  bases.any (fun b => pathname == b || strStartsWith pathname (b ++ "/"))

/-- The static/next-internals fast path at the top of `middleware`. -/
def isStaticAsset (pathname : String) : Bool :=
  strStartsWith pathname "/_next" ||
  strStartsWith pathname "/api" ||
  strStartsWith pathname "/static" ||
  strStartsWith pathname "/images" ||
  strStartsWith pathname "/favicon"

/-- The two columns of the profiles row that the middleware selects.
Either may be NULL in the store, hence `Option`. -/
structure ProfileRow where
  onboarded : Option Bool
  moderation_status : Option String
deriving DecidableEq, Repr

/-- Result of `supabase.auth.getUser()` as destructured by the middleware:
an error, a null user, or a user with an id. -/
inductive UserRes where
  | uerror
  | nouser
  | auser (id : String)
deriving DecidableEq, Repr

/-- Result of the `maybeSingle()` profile read: an error, or a possibly
absent row.  The middleware destructures only `data`, which is null when
the read errors. -/
inductive ProfileRes where
  | perror
  | pok (row : Option ProfileRow)
deriving DecidableEq, Repr

/-- The `data` field the middleware actually looks at: null on error. -/
def profileData : ProfileRes → Option ProfileRow
  | .perror => none
  | .pok row => row

/-- Responses the external services would give if consulted during one
gate evaluation. -/
structure Env where
  userRes : UserRes
  profileRes : ProfileRes
deriving DecidableEq, Repr

/-- JS truthiness of `profile?.onboarded`. -/
def onboardedTruthy : Option ProfileRow → Bool
  | none => false
  | some r => r.onboarded == some true

/-- JS `profile?.moderation_status === "approved"`. -/
def isApproved : Option ProfileRow → Bool
  | none => false
  | some r => r.moderation_status == some "approved"

/-- What the middleware returns: pass-through, or a redirect built from a
clone of the request URL (so the original query survives) with the
pathname replaced and, for the login case, a `redirect` parameter set. -/
inductive Outcome where
  | next
  | redirect (pathname : String) (query : Query)
deriving DecidableEq, Repr

/-- Outcome of one middleware run, together with which external calls it
performed (`auth.getUser()` and the profiles read). -/
structure GateResult where
  outcome : Outcome
  authChecked : Bool
  profileRead : Bool
deriving DecidableEq, Repr

/-- The `middleware` function of middleware.ts.  The request is its
pathname and query; `env` holds the answers the session provider and the
profile store would return if consulted. -/
def middleware (pathname : String) (query : Query) (env : Env) : GateResult :=
  if isStaticAsset pathname then
    ⟨.next, false, false⟩
  else if PUBLIC_ROUTES.contains pathname then
    ⟨.next, false, false⟩
  else if startsWithOneOf pathname AUTH_ONLY then
    match env.userRes with
    | .uerror => ⟨.redirect "/auth/login" (setParam "redirect" pathname query), true, false⟩
    | .nouser => ⟨.redirect "/auth/login" (setParam "redirect" pathname query), true, false⟩
    | .auser _ =>
      if startsWithOneOf pathname ONBOARDING_REQUIRED then
        let profile := profileData env.profileRes
        if !onboardedTruthy profile && pathname != "/onboarding" then
          ⟨.redirect "/onboarding" query, true, true⟩
        else if startsWithOneOf pathname APPROVAL_REQUIRED then
          if isApproved profile then ⟨.next, true, true⟩
          else ⟨.redirect "/dashboard" query, true, true⟩
        else ⟨.next, true, true⟩
      else ⟨.next, true, false⟩
  else ⟨.next, false, false⟩

/-- `PAGE_SIZE` from app/directory/page.tsx. -/
def PAGE_SIZE : Nat := 20

/-- `totalPages` from app/directory/page.tsx:
`Math.max(1, Math.ceil(count / PAGE_SIZE))`; for natural `count` the
ceiling is `(count + PAGE_SIZE - 1) / PAGE_SIZE`. -/
def totalPages (count : Nat) : Nat :=
  max 1 ((count + PAGE_SIZE - 1) / PAGE_SIZE)

/-- `from` in app/directory/page.tsx: start row of the requested page. -/
def pageFrom (page : Nat) : Nat :=
  (page - 1) * PAGE_SIZE

/-- `to` in app/directory/page.tsx: last row of the requested page. -/
def pageTo (page : Nat) : Nat :=
  pageFrom page + PAGE_SIZE - 1

/-- The authenticated user as used by the onboarding `onSubmit`. -/
structure AuthUser where
  id : String
  email : Option String
deriving DecidableEq, Repr

/-- The validated onboarding form values (the zod schema's output type
`OnboardingForm`; `graduation_year` is an integer after coercion). -/
structure OnboardingForm where
  full_name : String
  phone : String
  degree : String
  branch : String
  graduation_year : Int
  company : String
  job_role : String
  location : String
  linkedin : String
  avatar_url : String
  consent_terms : Bool
  consent_privacy : Bool
deriving DecidableEq, Repr

/-- The row upserted into `profiles` by `onSubmit` in
app/onboarding/page.tsx: id and email from the session user, the spread
form values with name/degree/branch trimmed, and the two flags. -/
structure ProfilesRow where
  id : String
  email : Option String
  full_name : String
  phone : String
  degree : String
  branch : String
  graduation_year : Int
  company : String
  job_role : String
  location : String
  linkedin : String
  avatar_url : String
  onboarded : Bool
  moderation_status : String
deriving DecidableEq, Repr

/-- The upsert payload built by `onSubmit` (app/onboarding/page.tsx). -/
def buildUpsertRow (user : AuthUser) (values : OnboardingForm) : ProfilesRow :=
  { id := user.id
    email := user.email
    full_name := jsTrim values.full_name
    phone := values.phone
    degree := jsTrim values.degree
    branch := jsTrim values.branch
    graduation_year := values.graduation_year
    company := values.company
    job_role := values.job_role
    location := values.location
    linkedin := values.linkedin
    avatar_url := values.avatar_url
    onboarded := true
    moderation_status := "pending" }

/-- The profiles table, keyed by the user id (its primary key). -/
abbrev ProfilesTable := List (String × ProfilesRow)

/-- PostgREST upsert on the primary key: replace the existing row for
that id, or insert a new one. -/
def upsertProfile (t : ProfilesTable) (row : ProfilesRow) : ProfilesTable :=
  if t.any (fun e => e.1 == row.id) then
    t.map (fun e => if e.1 == row.id then (row.id, row) else e)
  else
    t ++ [(row.id, row)]

/-- Read the profiles row stored for a user id. -/
def findProfile (t : ProfilesTable) (uid : String) : Option ProfilesRow :=
  (t.find? (fun e => e.1 == uid)).map (fun e => e.2)

/-- Raw state of the onboarding form as watched by the submit-button
gating.  `graduation_year` holds the numeric value of the year input;
`none` models an input whose JS `Number(...)` coercion is not finite. -/
structure FormInput where
  full_name : String
  phone : String
  degree : String
  branch : String
  graduation_year : Option Int
  company : String
  job_role : String
  location : String
  linkedin : String
  avatar_url : String
  consent_terms : Bool
  consent_privacy : Bool
deriving DecidableEq, Repr

/-- The case-insensitive regex `^https?:\/\/.+` of
lib/validation/onboarding.ts: http:// or https:// (in any case) followed
by at least one character. -/
def httpUrlTest (s : String) : Bool :=
  (strStartsWith (jsToLower s) "http://" && decide (7 < s.length)) ||
  (strStartsWith (jsToLower s) "https://" && decide (8 < s.length))

/-- Acceptance of the zod `onboardingSchema` (lib/validation/onboarding.ts):
full name at least 2 characters after trimming, degree and branch
non-empty after trimming, an integral graduation year between 1900 and
currentYear + 10, link fields empty or matching the URL regex after
trimming, and both consents true. -/
def onboardingSchemaAccepts (currentYear : Int) (f : FormInput) : Bool :=
  decide (2 ≤ (jsTrim f.full_name).length) &&
  decide (1 ≤ (jsTrim f.degree).length) &&
  decide (1 ≤ (jsTrim f.branch).length) &&
  (match f.graduation_year with
   | some n => decide (1900 ≤ n) && decide (n ≤ currentYear + 10)
   | none => false) &&
  (jsTrim f.linkedin == "" || httpUrlTest (jsTrim f.linkedin)) &&
  (jsTrim f.avatar_url == "" || httpUrlTest (jsTrim f.avatar_url)) &&
  f.consent_terms &&
  f.consent_privacy

/-- `requiredIncomplete` from app/onboarding/page.tsx: the submit button
is disabled while a required field is JS-falsy (empty after trimming),
the year input is not finite, or a consent is unchecked. -/
def requiredIncomplete (f : FormInput) : Bool :=
  jsTrim f.full_name == "" ||
  jsTrim f.degree == "" ||
  jsTrim f.branch == "" ||
  f.graduation_year.isNone ||
  !f.consent_terms ||
  !f.consent_privacy

/-- Submission is blocked iff the submit control is disabled
(`requiredIncomplete`) or the zod resolver rejects the values, in which
case `handleSubmit` never invokes `onSubmit`. -/
def submissionBlocked (currentYear : Int) (f : FormInput) : Bool :=
  requiredIncomplete f || !(onboardingSchemaAccepts currentYear f)

/-- The validation rules exactly as the claim words them, with the name
rule merely "non-empty after trimming".  Stated from the claim for
comparison with `onboardingSchemaAccepts`. -/
def claimedRulesOk (currentYear : Int) (f : FormInput) : Bool :=
  decide (1 ≤ (jsTrim f.full_name).length) &&
  decide (1 ≤ (jsTrim f.degree).length) &&
  decide (1 ≤ (jsTrim f.branch).length) &&
  (match f.graduation_year with
   | some n => decide (1900 ≤ n) && decide (n ≤ currentYear + 10)
   | none => false) &&
  (jsTrim f.linkedin == "" || httpUrlTest (jsTrim f.linkedin)) &&
  (jsTrim f.avatar_url == "" || httpUrlTest (jsTrim f.avatar_url)) &&
  f.consent_terms &&
  f.consent_privacy

/-- A form state with a one-character name and all other rules satisfied. -/
def oneCharNameForm : FormInput :=
  ⟨"A", "", "B.Tech", "CSE", some 2024, "", "", "", "", "", true, true⟩

/-- The claim's concrete case: empty name, other required fields filled. -/
def emptyNameForm : FormInput :=
  ⟨"", "", "B.Tech", "CSE", some 2024, "", "", "", "", "", true, true⟩

/-- A selected file as seen by `uploadAvatarOrReturnUrl`: name, MIME
type (`file.type`) and size in bytes. -/
structure JsFile where
  name : String
  mime : String
  size : Nat
deriving DecidableEq, Repr

/-- Response of `storage.from("avatars").upload(...)`. -/
inductive StorageUploadRes where
  | ok (path : String)
  | err (message : String)
deriving DecidableEq, Repr

/-- External-service answers for one avatar upload attempt: the storage
response and the public URL `getPublicUrl` would return. -/
structure AvatarEnv where
  upload : StorageUploadRes
  publicUrl : String
deriving DecidableEq, Repr

/-- Result of `uploadAvatarOrReturnUrl`: the returned URL, whether any
network call (the storage upload) was issued, and the toasts shown. -/
structure UploadResult where
  url : Option String
  networkCalled : Bool
  toasts : List String
deriving DecidableEq, Repr

/-- `uploadAvatarOrReturnUrl` from app/onboarding/page.tsx: no file means
null; a non-image or an over-5MB file is rejected with a toast before the
storage call; otherwise the file is uploaded and the public URL returned,
or null with a toast on upload failure. -/
def uploadAvatarOrReturnUrl (file : Option JsFile) (env : AvatarEnv) : UploadResult :=
  match file with
  | none => ⟨none, false, []⟩
  | some f =>
    if !strStartsWith f.mime "image/" then
      ⟨none, false, ["Please select an image file."]⟩
    else if decide (5 * 1024 * 1024 < f.size) then
      ⟨none, false, ["Image too large (max 5MB)."]⟩
    else
      match env.upload with
      | .ok _ => ⟨some env.publicUrl, true, []⟩
      | .err m => ⟨none, true, [m]⟩

/-- The avatar stage of `onSubmit`: upload when a file is selected,
overwrite `values.avatar_url` only when a URL came back, then build the
upsert payload.  Returns the payload and the upload result. -/
def onSubmitWithAvatar (user : AuthUser) (avatarFile : Option JsFile)
    (env : AvatarEnv) (values : OnboardingForm) : ProfilesRow × UploadResult :=
  match avatarFile with
  | none => (buildUpsertRow user values, ⟨none, false, []⟩)
  | some f =>
    let up := uploadAvatarOrReturnUrl (some f) env
    let values2 :=
      match up.url with
      | some u => { values with avatar_url := u }
      | none => values
    (buildUpsertRow user values2, up)

/-- Sample validated values used by concrete scenarios. -/
def sampleValues : OnboardingForm :=
  ⟨"Asha Rao", "", "B.Tech", "CSE", 2023, "", "", "", "", "", true, true⟩

/-! ### Helper lemmas about path classification -/

lemma isPrefixOf_char_iff {a b : List Char} :
    a.isPrefixOf b = true ↔ a <+: b :=
  List.isPrefixOf_iff_prefix

lemma strStartsWith_getQ {p a : String} (h : strStartsWith p a = true)
    {n : Nat} (hn : n < a.data.length) : p.data[n]? = a.data[n]? := by
  have hpre : a.data <+: p.data := isPrefixOf_char_iff.mp h
  rcases hpre with ⟨t, ht⟩
  rw [← ht, List.getElem?_append, if_pos hn]

lemma prefix_conflict {p a b : String} (n : Nat)
    (ha : strStartsWith p a = true) (hb : strStartsWith p b = true)
    (hna : n < a.data.length) (hnb : n < b.data.length)
    (hne : a.data[n]? ≠ b.data[n]?) : False := by
  have h1 := strStartsWith_getQ ha hna
  have h2 := strStartsWith_getQ hb hnb
  exact hne (h1.symm.trans h2)

lemma swo_ob_imp_auth {p : String}
    (h : startsWithOneOf p ONBOARDING_REQUIRED = true) :
    startsWithOneOf p AUTH_ONLY = true := by
  simp [startsWithOneOf, ONBOARDING_REQUIRED, AUTH_ONLY] at *
  tauto

lemma swo_ob_ne_onboarding {p : String}
    (h : startsWithOneOf p ONBOARDING_REQUIRED = true) :
    p ≠ "/onboarding" := by
  simp [startsWithOneOf, ONBOARDING_REQUIRED] at h
  rcases h with (h | h) | (h | h) <;> intro he <;> subst he <;> revert h <;> decide

lemma auth_not_static {p : String}
    (hp : startsWithOneOf p AUTH_ONLY = true) : isStaticAsset p = false := by
  rw [← Bool.not_eq_true]
  intro hs
  simp [isStaticAsset] at hs
  simp [startsWithOneOf, AUTH_ONLY] at hp
  rcases hp with (hp | hp) | (hp | hp) | hp | hp <;>
    rcases hs with (((hs | hs) | hs) | hs) | hs <;>
    first
      | (subst hp; revert hs; decide)
      | exact prefix_conflict 1 hp hs (by decide) (by decide) (by decide)

lemma auth_not_public {p : String}
    (hp : startsWithOneOf p AUTH_ONLY = true) :
    PUBLIC_ROUTES.contains p = false := by
  rw [← Bool.not_eq_true]
  intro hc
  have hm : p ∈ PUBLIC_ROUTES := by simpa using hc
  simp [PUBLIC_ROUTES] at hm
  rcases hm with rfl | rfl | rfl | rfl <;> revert hp <;> decide

/-! ### Helper lemmas about the middleware's branches -/

lemma middleware_protected (p : String) (q : Query) (env : Env)
    (hp : startsWithOneOf p AUTH_ONLY = true) :
    middleware p q env =
      (match env.userRes with
       | .uerror => ⟨.redirect "/auth/login" (setParam "redirect" p q), true, false⟩
       | .nouser => ⟨.redirect "/auth/login" (setParam "redirect" p q), true, false⟩
       | .auser _ =>
         if startsWithOneOf p ONBOARDING_REQUIRED then
           if !onboardedTruthy (profileData env.profileRes) && p != "/onboarding" then
             ⟨.redirect "/onboarding" q, true, true⟩
           else if startsWithOneOf p APPROVAL_REQUIRED then
             if isApproved (profileData env.profileRes) then ⟨.next, true, true⟩
             else ⟨.redirect "/dashboard" q, true, true⟩
           else ⟨.next, true, true⟩
         else ⟨.next, true, false⟩) := by
  unfold middleware
  rw [auth_not_static hp, auth_not_public hp, hp]
  simp

lemma middleware_login_redirect {p : String} (q : Query) (env : Env)
    (hp : startsWithOneOf p AUTH_ONLY = true)
    (hu : env.userRes = .uerror ∨ env.userRes = .nouser) :
    middleware p q env =
      ⟨.redirect "/auth/login" (setParam "redirect" p q), true, false⟩ := by
  rw [middleware_protected p q env hp]
  rcases hu with hu | hu <;> rw [hu]

lemma middleware_onboarding_redirect {p : String} (q : Query) (uid : String)
    (pr : ProfileRes)
    (hp : startsWithOneOf p ONBOARDING_REQUIRED = true)
    (hnb : onboardedTruthy (profileData pr) = false) :
    middleware p q ⟨.auser uid, pr⟩ = ⟨.redirect "/onboarding" q, true, true⟩ := by
  rw [middleware_protected p q _ (swo_ob_imp_auth hp)]
  have hne : (p != "/onboarding") = true := by
    simpa using swo_ob_ne_onboarding hp
  simp [hp, hnb, hne]

lemma middleware_public_pass {p : String}
    (hs : isStaticAsset p = false) (hc : PUBLIC_ROUTES.contains p = true)
    (q : Query) (env : Env) :
    middleware p q env = ⟨.next, false, false⟩ := by
  unfold middleware
  rw [hs, hc]
  simp

/-! ### Helper lemmas about query parameters and the profiles table -/

lemma getParam_setParam (k v : String) (q : Query) :
    getParam k (setParam k v q) = some v := by
  have hnone : (q.filter (fun e => !(e.1 == k))).find? (fun e => e.1 == k) = none := by
    rw [List.find?_eq_none]
    intro x hx
    have hmem := (List.mem_filter.mp hx).2
    simpa using hmem
  simp [getParam, setParam, List.find?_append, hnone, List.find?]

lemma find_after_replace (t : ProfilesTable) (row : ProfilesRow)
    (h : t.any (fun e => e.1 == row.id) = true) :
    (t.map (fun e => if e.1 == row.id then (row.id, row) else e)).find?
        (fun e => e.1 == row.id) = some (row.id, row) := by
  induction t with
  | nil => simp at h
  | cons e s ih =>
    by_cases he : (e.1 == row.id) = true
    · rw [List.map_cons, if_pos he, List.find?_cons_of_pos _ (by simp)]
    · simp only [List.any_cons, Bool.or_eq_true] at h
      rcases h with h | h
      · exact absurd h he
      · rw [List.map_cons, if_neg he, List.find?_cons_of_neg _ (by simpa using he)]
        exact ih h

lemma findProfile_upsertProfile (t : ProfilesTable) (row : ProfilesRow) :
    findProfile (upsertProfile t row) row.id = some row := by
  unfold upsertProfile findProfile
  by_cases h : t.any (fun e => e.1 == row.id) = true
  · rw [if_pos h, find_after_replace t row h]
    rfl
  · rw [if_neg h]
    have hnone : t.find? (fun e => e.1 == row.id) = none := by
      rw [List.find?_eq_none]
      intro x hx hpx
      exact h (List.any_eq_true.mpr ⟨x, hx, hpx⟩)
    simp [List.find?_append, hnone, List.find?]

/-- A navigation to /onboarding is never answered with a redirect to
/onboarding, whatever the session and profile state. -/
lemma onboarding_never_self_redirect (q2 : Query) (env2 : Env) (q3 : Query) :
    (middleware "/onboarding" q2 env2).outcome ≠ .redirect "/onboarding" q3 := by
  obtain ⟨ur, pr2⟩ := env2
  rw [middleware_protected _ q2 _ (by decide)]
  cases ur with
  | uerror =>
    intro hcon
    injection hcon with h1 h2
    revert h1
    decide
  | nouser =>
    intro hcon
    injection hcon with h1 h2
    revert h1
    decide
  | auser uid2 =>
    have hny : startsWithOneOf "/onboarding" ONBOARDING_REQUIRED = false := by decide
    simp [hny]

/-! ### Helper lemmas about the onboarding validation -/

lemma beq_empty_false_of_len {s : String} (h : 1 ≤ s.length) : (s == "") = false := by
  cases hb : s == "" with
  | false => rfl
  | true =>
    have hs : s = "" := by simpa using hb
    rw [hs] at h
    exact absurd h (by decide)

lemma schema_true_imp_complete (cy : Int) (f : FormInput)
    (h : onboardingSchemaAccepts cy f = true) :
    requiredIncomplete f = false := by
  unfold onboardingSchemaAccepts at h
  simp only [Bool.and_eq_true, decide_eq_true_iff] at h
  obtain ⟨⟨⟨⟨⟨⟨⟨h1, h2⟩, h3⟩, h4⟩, h5⟩, h6⟩, h7⟩, h8⟩ := h
  have e1 : (jsTrim f.full_name == "") = false := beq_empty_false_of_len (by omega)
  have e2 : (jsTrim f.degree == "") = false := beq_empty_false_of_len h2
  have e3 : (jsTrim f.branch == "") = false := beq_empty_false_of_len h3
  have e4 : f.graduation_year.isNone = false := by
    cases hy : f.graduation_year with
    | none => rw [hy] at h4; simp at h4
    | some n => rfl
  unfold requiredIncomplete
  simp [e1, e2, e3, e4, h7, h8]

lemma blocked_iff_schema_false (cy : Int) (f : FormInput) :
    submissionBlocked cy f = true ↔ onboardingSchemaAccepts cy f = false := by
  unfold submissionBlocked
  constructor
  · intro h
    rw [Bool.or_eq_true] at h
    rcases h with hreq | hns
    · by_contra hnot
      have hsch : onboardingSchemaAccepts cy f = true := by
        cases hv : onboardingSchemaAccepts cy f with
        | false => exact absurd hv hnot
        | true => rfl
      rw [schema_true_imp_complete cy f hsch] at hreq
      exact absurd hreq (by decide)
    · simpa using hns
  · intro h
    simp [h]

lemma schema_true_iff_rules (cy : Int) (f : FormInput) :
    onboardingSchemaAccepts cy f = true ↔
      (2 ≤ (jsTrim f.full_name).length ∧
       1 ≤ (jsTrim f.degree).length ∧
       1 ≤ (jsTrim f.branch).length ∧
       (∃ n, f.graduation_year = some n ∧ 1900 ≤ n ∧ n ≤ cy + 10) ∧
       (jsTrim f.linkedin = "" ∨ httpUrlTest (jsTrim f.linkedin) = true) ∧
       (jsTrim f.avatar_url = "" ∨ httpUrlTest (jsTrim f.avatar_url) = true) ∧
       f.consent_terms = true ∧ f.consent_privacy = true) := by
  unfold onboardingSchemaAccepts
  cases hy : f.graduation_year with
  | none => simp [hy]
  | some n => simp [hy, Bool.and_eq_true, decide_eq_true_iff, and_assoc]

/-! ### Claims -/

/-- C1: for every auth-required path (equal to or an exact-segment
extension of /dashboard, /onboarding or /directory), an identity-lookup
error or a null user yields a redirect to /auth/login whose `redirect`
query parameter is the originally requested path verbatim, and the gate
performs no profile read, so neither the onboarding nor the approval
check is evaluated. -/
theorem claim_C1_login_redirect (p : String) (q : Query) (env : Env)
    (hp : startsWithOneOf p AUTH_ONLY = true)
    (hu : env.userRes = .uerror ∨ env.userRes = .nouser) :
    middleware p q env =
      ⟨.redirect "/auth/login" (setParam "redirect" p q), true, false⟩ ∧
    getParam "redirect" (setParam "redirect" p q) = some p :=
  ⟨middleware_login_redirect q env hp hu, getParam_setParam "redirect" p q⟩

/-- C1 witness: an unauthenticated navigation to /dashboard. -/
theorem claim_C1_login_redirect_witness :
    middleware "/dashboard" [] ⟨.nouser, .pok none⟩ =
      ⟨.redirect "/auth/login" [("redirect", "/dashboard")], true, false⟩ ∧
    getParam "redirect" (setParam "redirect" "/dashboard" []) = some "/dashboard" :=
  claim_C1_login_redirect "/dashboard" [] ⟨.nouser, .pok none⟩ (by decide) (Or.inr rfl)

/-- C2 counterexample: a non-onboarded navigation to /dashboard?tab=1 is
redirected to /onboarding still carrying the query parameter tab=1
(the redirect clones the request URL), so the redirect does not always
carry no query parameter. -/
theorem claim_C2_counterexample :
    middleware "/dashboard" [("tab", "1")] ⟨.auser "u1", .pok none⟩ =
      ⟨.redirect "/onboarding" [("tab", "1")], true, true⟩ ∧
    [("tab", "1")] ≠ ([] : Query) := by
  decide

/-- C2 (amended): for a falsy `onboarded` and any onboarding-required
path, an authenticated navigation is redirected to /onboarding with the
middleware attaching no query parameter of its own — the original query
is preserved verbatim, hence empty when the navigation carried none —
and a navigation to /onboarding itself is never redirected to
/onboarding for this or any reason. -/
theorem claim_C2_onboarding_redirect (p : String) (q : Query) (uid : String)
    (pr : ProfileRes)
    (hp : startsWithOneOf p ONBOARDING_REQUIRED = true)
    (hnb : onboardedTruthy (profileData pr) = false) :
    middleware p q ⟨.auser uid, pr⟩ = ⟨.redirect "/onboarding" q, true, true⟩ ∧
    ∀ q2 env2 q3, (middleware "/onboarding" q2 env2).outcome ≠ .redirect "/onboarding" q3 :=
  ⟨middleware_onboarding_redirect q uid pr hp hnb,
   fun q2 env2 q3 => onboarding_never_self_redirect q2 env2 q3⟩

/-- C2 witness: an authenticated user with no profile row navigating to
/dashboard with an empty query is sent to /onboarding with an empty
query. -/
theorem claim_C2_onboarding_redirect_witness :
    middleware "/dashboard" [] ⟨.auser "u2", .pok none⟩ =
      ⟨.redirect "/onboarding" [], true, true⟩ :=
  (claim_C2_onboarding_redirect "/dashboard" [] "u2" (.pok none)
    (by decide) (by decide)).1

/-- C3: for an authenticated user whose profile row has `onboarded`
true, navigating to /directory redirects to /dashboard exactly when
`moderation_status` is not the string "approved" (pending, rejected and
NULL included), and passes through when it equals "approved". -/
theorem claim_C3_approval_gate (q : Query) (uid : String) (row : ProfileRow)
    (hob : row.onboarded = some true) :
    (row.moderation_status ≠ some "approved" →
      middleware "/directory" q ⟨.auser uid, .pok (some row)⟩ =
        ⟨.redirect "/dashboard" q, true, true⟩) ∧
    (row.moderation_status = some "approved" →
      middleware "/directory" q ⟨.auser uid, .pok (some row)⟩ =
        ⟨.next, true, true⟩) := by
  have hob2 : onboardedTruthy (profileData (.pok (some row))) = true := by
    simp [onboardedTruthy, profileData, hob]
  have h1 : startsWithOneOf "/directory" ONBOARDING_REQUIRED = true := by decide
  have h2 : startsWithOneOf "/directory" APPROVAL_REQUIRED = true := by decide
  constructor <;> intro hst <;>
    rw [middleware_protected "/directory" q ⟨.auser uid, .pok (some row)⟩ (by decide)]
  · have hap : isApproved (profileData (.pok (some row))) = false := by
      simp [isApproved, profileData]
      simpa using hst
    simp [h1, h2, hob2, hap]
  · have hap : isApproved (profileData (.pok (some row))) = true := by
      simp [isApproved, profileData, hst]
    simp [h1, h2, hob2, hap]

/-- C3 witness: an onboarded but pending profile is turned away from
/directory to /dashboard, and an approved one passes through. -/
theorem claim_C3_approval_gate_witness :
    middleware "/directory" [] ⟨.auser "u3", .pok (some ⟨some true, some "pending"⟩)⟩ =
      ⟨.redirect "/dashboard" [], true, true⟩ ∧
    middleware "/directory" [] ⟨.auser "u3", .pok (some ⟨some true, some "approved"⟩)⟩ =
      ⟨.next, true, true⟩ :=
  ⟨(claim_C3_approval_gate [] "u3" ⟨some true, some "pending"⟩ rfl).1 (by decide),
   (claim_C3_approval_gate [] "u3" ⟨some true, some "approved"⟩ rfl).2 rfl⟩

/-- C4: an identity-lookup error produces exactly the same login
redirect as a missing user (fail closed), and a profile-read error makes
the destructured data null, which reads as "not yet onboarded" and
produces the /onboarding redirect (fail open); both outcomes are
redirects — the gate's outcome type has no in-page error at all. -/
theorem claim_C4_error_handling :
    (∀ p q pr, startsWithOneOf p AUTH_ONLY = true →
      middleware p q ⟨.uerror, pr⟩ =
        ⟨.redirect "/auth/login" (setParam "redirect" p q), true, false⟩ ∧
      middleware p q ⟨.uerror, pr⟩ = middleware p q ⟨.nouser, pr⟩) ∧
    (∀ p q uid, startsWithOneOf p ONBOARDING_REQUIRED = true →
      middleware p q ⟨.auser uid, .perror⟩ =
        ⟨.redirect "/onboarding" q, true, true⟩) := by
  constructor
  · intro p q pr hp
    refine ⟨middleware_login_redirect q _ hp (Or.inl rfl), ?_⟩
    rw [middleware_login_redirect q _ hp (Or.inl rfl),
      middleware_login_redirect q _ hp (Or.inr rfl)]
  · intro p q uid hp
    exact middleware_onboarding_redirect q uid .perror hp rfl

/-- C4 witness: a failing identity lookup on /dashboard redirects to
login; a failing profile read on /directory redirects to /onboarding. -/
theorem claim_C4_error_handling_witness :
    middleware "/dashboard" [] ⟨.uerror, .pok none⟩ =
      ⟨.redirect "/auth/login" [("redirect", "/dashboard")], true, false⟩ ∧
    middleware "/directory" [] ⟨.auser "u9", .perror⟩ =
      ⟨.redirect "/onboarding" [], true, true⟩ :=
  ⟨(claim_C4_error_handling.1 "/dashboard" [] (.pok none) (by decide)).1,
   claim_C4_error_handling.2 "/directory" [] "u9" (by decide)⟩

/-- C5: every route in the public set passes through with no identity
lookup; a path is tagged with a protected prefix iff it equals the base
or starts with base + "/"; /dashboard2 is not tagged while
/dashboard/settings is. -/
theorem claim_C5_public_and_tagging :
    (∀ p, p ∈ PUBLIC_ROUTES → ∀ q env, middleware p q env = ⟨.next, false, false⟩) ∧
    (∀ p bases, startsWithOneOf p bases = true ↔
      ∃ b ∈ bases, p = b ∨ strStartsWith p (b ++ "/") = true) ∧
    startsWithOneOf "/dashboard2" AUTH_ONLY = false ∧
    startsWithOneOf "/dashboard/settings" AUTH_ONLY = true := by
  refine ⟨?_, ?_, by decide, by decide⟩
  · intro p hmem q env
    simp only [PUBLIC_ROUTES, List.mem_cons, List.not_mem_nil, or_false] at hmem
    rcases hmem with rfl | rfl | rfl | rfl <;>
      exact middleware_public_pass (by decide) (by decide) q env
  · intro p bases
    simp [startsWithOneOf, List.any_eq_true]

/-- C5 witness: the public route /auth/login passes through untouched
even when the session provider would report an error. -/
theorem claim_C5_public_and_tagging_witness :
    middleware "/auth/login" [] ⟨.uerror, .perror⟩ = ⟨.next, false, false⟩ :=
  claim_C5_public_and_tagging.1 "/auth/login" (by decide) [] ⟨.uerror, .perror⟩

/-- C6: every onboarding submission upserts a profiles row carrying
`onboarded = true` and `moderation_status = "pending"`, whatever was
stored before; the concrete B.Tech/CSE/2023 submission with both
consents stores exactly such a row. -/
theorem claim_C6_upsert_flags :
    (∀ t user values,
      findProfile (upsertProfile t (buildUpsertRow user values)) user.id =
        some (buildUpsertRow user values) ∧
      (buildUpsertRow user values).onboarded = true ∧
      (buildUpsertRow user values).moderation_status = "pending") ∧
    (buildUpsertRow ⟨"u1", some "a@x.in"⟩ sampleValues).onboarded = true ∧
    (buildUpsertRow ⟨"u1", some "a@x.in"⟩ sampleValues).moderation_status = "pending" ∧
    (buildUpsertRow ⟨"u1", some "a@x.in"⟩ sampleValues).degree = "B.Tech" ∧
    (buildUpsertRow ⟨"u1", some "a@x.in"⟩ sampleValues).branch = "CSE" ∧
    (buildUpsertRow ⟨"u1", some "a@x.in"⟩ sampleValues).graduation_year = 2023 := by
  refine ⟨?_, by decide, by decide, by decide, by decide, by decide⟩
  intro t user values
  exact ⟨findProfile_upsertProfile t (buildUpsertRow user values), rfl, rfl⟩

/-- C7 counterexample: with a one-character name and every rule of the
claim's list satisfied, submission is still blocked (the schema demands
at least two characters of name), so the claimed rule list is not
exactly the blocking condition. -/
theorem claim_C7_counterexample :
    claimedRulesOk 2024 oneCharNameForm = true ∧
    submissionBlocked 2024 oneCharNameForm = true := by
  decide

/-- C7 (amended): submission is blocked exactly while some rule fails,
the rules being: name at least 2 characters after trimming, degree and
branch non-empty after trimming, graduation year an integer between 1900
and currentYear + 10, link fields (after trimming) empty or starting
with http:// or https:// case-insensitively followed by at least one
character, and both consents true; the claim's concrete empty-name case
stays blocked. -/
theorem claim_C7_validation_rules :
    (∀ cy f, submissionBlocked cy f = true ↔
      ¬(2 ≤ (jsTrim f.full_name).length ∧
        1 ≤ (jsTrim f.degree).length ∧
        1 ≤ (jsTrim f.branch).length ∧
        (∃ n, f.graduation_year = some n ∧ 1900 ≤ n ∧ n ≤ cy + 10) ∧
        (jsTrim f.linkedin = "" ∨ httpUrlTest (jsTrim f.linkedin) = true) ∧
        (jsTrim f.avatar_url = "" ∨ httpUrlTest (jsTrim f.avatar_url) = true) ∧
        f.consent_terms = true ∧ f.consent_privacy = true)) ∧
    submissionBlocked 2024 emptyNameForm = true := by
  refine ⟨?_, by decide⟩
  intro cy f
  rw [blocked_iff_schema_false, ← schema_true_iff_rules]
  cases hv : onboardingSchemaAccepts cy f <;> simp [hv]

/-- C8: an over-5MB image file is rejected before the storage call is
issued, with the size-limit toast; the form's stored avatar reference is
unchanged and the submission still proceeds, upserting the row built
from the original values. -/
theorem claim_C8_avatar_size_limit (f : JsFile) (env : AvatarEnv)
    (user : AuthUser) (values : OnboardingForm)
    (himg : strStartsWith f.mime "image/" = true)
    (hbig : 5 * 1024 * 1024 < f.size) :
    uploadAvatarOrReturnUrl (some f) env =
      ⟨none, false, ["Image too large (max 5MB)."]⟩ ∧
    onSubmitWithAvatar user (some f) env values =
      (buildUpsertRow user values, ⟨none, false, ["Image too large (max 5MB)."]⟩) ∧
    (onSubmitWithAvatar user (some f) env values).1.avatar_url = values.avatar_url := by
  have hup : uploadAvatarOrReturnUrl (some f) env =
      ⟨none, false, ["Image too large (max 5MB)."]⟩ := by
    simp [uploadAvatarOrReturnUrl, himg, hbig]
  have hsub : onSubmitWithAvatar user (some f) env values =
      (buildUpsertRow user values, ⟨none, false, ["Image too large (max 5MB)."]⟩) := by
    simp [onSubmitWithAvatar, hup]
  refine ⟨hup, hsub, ?_⟩
  rw [hsub]
  rfl

/-- C8 witness: a 6 MB PNG is rejected with the size toast and no
network call. -/
theorem claim_C8_avatar_size_limit_witness :
    strStartsWith "image/png" "image/" = true ∧
    5 * 1024 * 1024 < 6 * 1024 * 1024 ∧
    uploadAvatarOrReturnUrl (some ⟨"big.png", "image/png", 6 * 1024 * 1024⟩)
        ⟨.ok "profiles/u1/big.png", "https://cdn.example/p"⟩ =
      ⟨none, false, ["Image too large (max 5MB)."]⟩ :=
  ⟨by decide, by decide,
   (claim_C8_avatar_size_limit ⟨"big.png", "image/png", 6 * 1024 * 1024⟩
     ⟨.ok "profiles/u1/big.png", "https://cdn.example/p"⟩ ⟨"u1", none⟩ sampleValues
     (by decide) (by decide)).1⟩

/-- C9 counterexample: at N = 0 the code computes max(1, ceil(0/20)) = 1
pages while ceil(0/20) = 0, so the computed page count does not equal
ceil(N/20) for every N. -/
theorem claim_C9_counterexample :
    totalPages 0 = 1 ∧ (0 + PAGE_SIZE - 1) / PAGE_SIZE = 0 ∧
    totalPages 0 ≠ (0 + PAGE_SIZE - 1) / PAGE_SIZE := by
  decide

/-- C9 (amended): the window of page p (p ≥ 1) spans rows (p-1)*20
through p*20-1 with the fixed page size 20, and the computed page count
is max(1, ceil(N/20)): equal to ceil(N/20) for every N ≥ 1 and equal to
1 for N = 0. -/
theorem claim_C9_pagination (N page : Nat) (hN : 1 ≤ N) (hpage : 1 ≤ page) :
    totalPages N = (N + PAGE_SIZE - 1) / PAGE_SIZE ∧
    pageFrom page = (page - 1) * 20 ∧
    pageTo page = page * 20 - 1 ∧
    PAGE_SIZE = 20 ∧
    totalPages 0 = 1 := by
  refine ⟨?_, rfl, ?_, rfl, rfl⟩
  · unfold totalPages PAGE_SIZE
    omega
  · unfold pageTo pageFrom PAGE_SIZE
    omega

/-- C9 witness: 45 results give 3 pages, and page 3 spans rows 40–59. -/
theorem claim_C9_pagination_witness :
    totalPages 45 = (45 + PAGE_SIZE - 1) / PAGE_SIZE ∧
    pageFrom 3 = (3 - 1) * 20 ∧
    pageTo 3 = 3 * 20 - 1 ∧
    PAGE_SIZE = 20 ∧
    totalPages 0 = 1 :=
  claim_C9_pagination 45 3 (by decide) (by decide)

/-- C10: a request whose path is neither in the public set nor an
exact-segment match of any protected prefix set passes through with no
identity lookup and no profile read — unrecognized paths default to
allow. -/
theorem claim_C10_default_allow (p : String) (q : Query) (env : Env)
    (hpub : PUBLIC_ROUTES.contains p = false)
    (hauth : startsWithOneOf p AUTH_ONLY = false)
    (_hob : startsWithOneOf p ONBOARDING_REQUIRED = false)
    (_hap : startsWithOneOf p APPROVAL_REQUIRED = false) :
    middleware p q env = ⟨.next, false, false⟩ := by
  unfold middleware
  rw [hpub, hauth]
  cases hs : isStaticAsset p <;> simp

/-- C10 witness: /about and /auth/login/extra both pass through with no
lookups. -/
theorem claim_C10_default_allow_witness :
    middleware "/about" [] ⟨.uerror, .perror⟩ = ⟨.next, false, false⟩ ∧
    middleware "/auth/login/extra" [] ⟨.uerror, .perror⟩ = ⟨.next, false, false⟩ :=
  ⟨claim_C10_default_allow "/about" [] ⟨.uerror, .perror⟩
     (by decide) (by decide) (by decide) (by decide),
   claim_C10_default_allow "/auth/login/extra" [] ⟨.uerror, .perror⟩
     (by decide) (by decide) (by decide) (by decide)⟩

end AlumniNet
